import Mathlib

/-!
Shallow embedding of the dbt-fabric adapter connectivity layer:
driver-backend connection-string construction, token management,
query retry, and warehouse-snapshot orchestration / polling.
-/

namespace DbtFabric

/-- Byte strings are modelled as lists of naturals (each intended < 256). -/
abbrev Bytes := List Nat

/-- The interleaving step of convert_bytes_to_mswindows_byte_string:
Python bytes(chain.from_iterable(zip(value, repeat(0)))) — each input byte
followed by a zero byte. -/
def interleaveZeros : Bytes → Bytes
  | [] => []
  | b :: bs => b :: 0 :: interleaveZeros bs

/-- struct.pack("<i", n): the 4-byte little-endian encoding of n
(faithful for all values representable in the packed width). -/
def packLE4 (n : Nat) : Bytes :=
  [n % 256, n / 256 % 256, n / 65536 % 256, n / 16777216 % 256]

/-- driver_backend.convert_bytes_to_mswindows_byte_string: the length of the
interleaved encoding packed little-endian, followed by the encoding itself. -/
def convert_bytes_to_mswindows_byte_string (value : Bytes) : Bytes :=
  packLE4 (interleaveZeros value).length ++ interleaveZeros value

/-- Inverse of the interleaving: keep every first byte of each pair. -/
def stripInterleaved : Bytes → Bytes
  | b :: _ :: rest => b :: stripInterleaved rest
  | [b] => [b]
  | [] => []

theorem interleaveZeros_length (v : Bytes) :
    (interleaveZeros v).length = 2 * v.length := by
  induction v with
  | nil => rfl
  | cons b bs ih => simp [interleaveZeros, ih]; omega

theorem stripInterleaved_interleaveZeros (v : Bytes) :
    stripInterleaved (interleaveZeros v) = v := by
  induction v with
  | nil => rfl
  | cons b bs ih => simp [interleaveZeros, stripInterleaved, ih]

/-- C7: convert_bytes_to_mswindows_byte_string(v) is the 4-byte little-endian
encoding of 2*len(v) followed by the bytes of v interleaved with zero bytes;
stripping the 4-byte prefix and the interleaved zeros recovers v; the empty
input maps to exactly 4 zero bytes; and input "abc" (bytes 97,98,99) maps to
the little-endian encoding of 6 followed by 97,0,98,0,99,0. -/
theorem C7_convert_bytes_roundtrip :
    (∀ v : Bytes,
      convert_bytes_to_mswindows_byte_string v =
        packLE4 (2 * v.length) ++ interleaveZeros v ∧
      stripInterleaved ((convert_bytes_to_mswindows_byte_string v).drop 4) = v) ∧
    convert_bytes_to_mswindows_byte_string [] = [0, 0, 0, 0] ∧
    convert_bytes_to_mswindows_byte_string [97, 98, 99] =
      packLE4 6 ++ [97, 0, 98, 0, 99, 0] := by
  refine ⟨fun v => ⟨?_, ?_⟩, by decide, by decide⟩
  · rw [convert_bytes_to_mswindows_byte_string, interleaveZeros_length]
  · rw [convert_bytes_to_mswindows_byte_string, packLE4]
    simpa using stripInterleaved_interleaveZeros v

/-! ## Connection-string construction (driver_backend.py) -/

/-- Python str.lower(), over the string's characters. -/
def pyLower (s : String) : String := String.mk (s.data.map Char.toLower)

/-- Whether pat occurs at the start of s (character lists). -/
def listStartsWith : List Char → List Char → Bool
  | _, [] => true
  | [], _ :: _ => false
  | a :: as, b :: bs => a == b && listStartsWith as bs

/-- Whether pat occurs anywhere in s (character lists). -/
def containsAux (pat : List Char) : List Char → Bool
  | [] => pat.isEmpty
  | c :: rest => listStartsWith (c :: rest) pat || containsAux pat rest

/-- Python substring test: pat in s. -/
def strContains (s pat : String) : Bool := containsAux pat.data s.data

/-- Python truthiness of an optional string: non-None and non-empty. -/
def truthyStr : Option String → Bool
  | none => false
  | some s => s != ""

/-- The parameters of DriverBackend.build_connection_string. -/
structure ConnParams where
  host : String
  database : String
  authentication : String
  encrypt : Bool
  trust_cert : Bool
  application_name : String
  trace_flag : Bool
  driver : Option String
  uid : Option String
  pwd : Option String
  windows_login : Bool
deriving Repr, DecidableEq

/-- A raised driver DatabaseError, recording the key=value fields that had
been appended to the connection string under construction at the moment of
the raise. -/
structure DatabaseErrorAt where
  message : String
  fieldsAppended : List String
deriving Repr, DecidableEq

/-- The trailing fields both backends always append after the
authentication section: encryption flag, certificate-trust flag,
application name, fixed retry settings. -/
def commonTrailingFields (p : ConnParams) (encryptKey : String) : List String :=
  [encryptKey ++ "=" ++ (if p.encrypt then "Yes" else "No"),
   "TrustServerCertificate=" ++ (if p.trust_cert then "Yes" else "No"),
   "APP=" ++ p.application_name,
   "ConnectRetryCount=3",
   "ConnectRetryInterval=10"]

namespace MssqlPythonBackend

/-- The fields MssqlPythonBackend.build_connection_string appends before its
authentication section. -/
def baseFields (p : ConnParams) : List String :=
  ["SERVER=" ++ p.host, "Database=" ++ p.database]

/-- MssqlPythonBackend.build_connection_string through its authentication
section (where the SQL-auth raise can occur). -/
def authSection (p : ConnParams) : Except DatabaseErrorAt (List String) :=
  if p.windows_login then
    Except.ok (baseFields p ++ ["Trusted_Connection=Yes"])
  else if pyLower p.authentication = "sql" then
    Except.error ⟨"SQL Authentication is not supported by Microsoft Fabric", baseFields p⟩
  else if strContains p.authentication "ActiveDirectory"
      && p.authentication != "ActiveDirectoryAccessToken" then
    Except.ok (baseFields p ++ ["Authentication=" ++ p.authentication]
      ++ (if truthyStr p.uid then ["UID=" ++ p.uid.getD ""] else [])
      ++ (if truthyStr p.pwd then ["PWD=" ++ p.pwd.getD ""] else []))
  else
    Except.ok (baseFields p)

/-- MssqlPythonBackend.build_connection_string, as the list of appended
key=value fields (the returned string is their ";"-join). -/
def connection_fields (p : ConnParams) : Except DatabaseErrorAt (List String) :=
  (authSection p).map (fun fields => fields ++ commonTrailingFields p "Encrypt")

/-- MssqlPythonBackend.build_connection_string: ";".join of the fields. -/
def build_connection_string (p : ConnParams) : Except DatabaseErrorAt String :=
  (connection_fields p).map (String.intercalate ";")

end MssqlPythonBackend

namespace PyodbcBackend

/-- The DRIVER= field pyodbc prepends, defaulting the driver name when the
given one is falsy; the braces of the f-string are literal. -/
def driverField (p : ConnParams) : String :=
  "DRIVER=\x7b"
    ++ (if truthyStr p.driver then p.driver.getD "" else "ODBC Driver 18 for SQL Server")
    ++ "\x7d"

/-- The SQL_ATTR_TRACE field controlled by trace_flag. -/
def traceField (p : ConnParams) : String :=
  if p.trace_flag then "SQL_ATTR_TRACE=SQL_OPT_TRACE_ON"
  else "SQL_ATTR_TRACE=SQL_OPT_TRACE_OFF"

/-- The fields PyodbcBackend.build_connection_string appends before its
authentication section. -/
def baseFields (p : ConnParams) : List String :=
  [driverField p, "SERVER=" ++ p.host, "Database=" ++ p.database,
   "Pooling=true", traceField p]

/-- PyodbcBackend.build_connection_string through its authentication
section (where the SQL-auth raise can occur). -/
def authSection (p : ConnParams) : Except DatabaseErrorAt (List String) :=
  if p.windows_login then
    Except.ok (baseFields p ++ ["trusted_connection=Yes"])
  else if pyLower p.authentication = "sql" then
    Except.error ⟨"SQL Authentication is not supported by Microsoft Fabric", baseFields p⟩
  else if strContains p.authentication "ActiveDirectory"
      && p.authentication != "ActiveDirectoryAccessToken" then
    Except.ok (baseFields p ++ ["Authentication=" ++ p.authentication]
      ++ (if p.authentication = "ActiveDirectoryPassword"
            || p.authentication = "ActiveDirectoryServicePrincipal"
            || p.authentication = "ActiveDirectoryInteractive" then
            (if truthyStr p.uid then ["UID=\x7b" ++ p.uid.getD "" ++ "\x7d"] else [])
            ++ (if truthyStr p.pwd && p.authentication != "ActiveDirectoryInteractive"
                then ["PWD=\x7b" ++ p.pwd.getD "" ++ "\x7d"] else [])
          else []))
  else
    Except.ok (baseFields p)

/-- PyodbcBackend.build_connection_string, as the list of appended
key=value fields (the returned string is their ";"-join). -/
def connection_fields (p : ConnParams) : Except DatabaseErrorAt (List String) :=
  (authSection p).map (fun fields => fields ++ commonTrailingFields p "encrypt")

/-- PyodbcBackend.build_connection_string: ";".join of the fields. -/
def build_connection_string (p : ConnParams) : Except DatabaseErrorAt String :=
  (connection_fields p).map (String.intercalate ";")

end PyodbcBackend

/-- Whether an Except value is a success. -/
def exceptOk {ε α : Type} : Except ε α → Bool
  | Except.ok _ => true
  | Except.error _ => false

theorem exceptOk_map {ε α β : Type} (f : α → β) (e : Except ε α) :
    exceptOk (e.map f) = exceptOk e := by
  cases e <;> rfl

/-- Concrete parameter records used to instantiate the theorems below. -/
def sqlConnParams : ConnParams :=
  ⟨"h", "d", "sql", true, false, "app", false, none, none, none, false⟩

def adConnParams : ConnParams :=
  ⟨"h", "d", "ActiveDirectoryPassword", true, false, "app", false, none,
   some "u", some "pw", false⟩

theorem MssqlPythonBackend.mssqlAuthSectionOk (p : ConnParams)
    (h : pyLower p.authentication ≠ "sql") :
    exceptOk (MssqlPythonBackend.authSection p) = true := by
  unfold MssqlPythonBackend.authSection
  by_cases hw : p.windows_login = true
  · simp [hw, exceptOk]
  · by_cases had : (strContains p.authentication "ActiveDirectory"
        && p.authentication != "ActiveDirectoryAccessToken") = true
    · simp [hw, h, had, exceptOk]
    · simp [hw, h, had, exceptOk]

theorem PyodbcBackend.pyodbcAuthSectionOk (p : ConnParams)
    (h : pyLower p.authentication ≠ "sql") :
    exceptOk (PyodbcBackend.authSection p) = true := by
  unfold PyodbcBackend.authSection
  by_cases hw : p.windows_login = true
  · simp [hw, exceptOk]
  · by_cases had : (strContains p.authentication "ActiveDirectory"
        && p.authentication != "ActiveDirectoryAccessToken") = true
    · simp [hw, h, had, exceptOk]
    · simp [hw, h, had, exceptOk]

/-- C2 counterexample: with authentication "sql" and windows_login false the
pyodbc backend does raise the database error, but at the moment of the raise
the DRIVER, Pooling and SQL_ATTR_TRACE fields have already been appended in
addition to SERVER and Database — refuting the claim that no field other
than SERVER and Database has been appended. -/
theorem C2_counterexample :
    PyodbcBackend.connection_fields sqlConnParams =
      Except.error ⟨"SQL Authentication is not supported by Microsoft Fabric",
        ["DRIVER=\x7bODBC Driver 18 for SQL Server\x7d", "SERVER=h", "Database=d",
         "Pooling=true", "SQL_ATTR_TRACE=SQL_OPT_TRACE_OFF"]⟩ ∧
    "Pooling=true" ∈
      ["DRIVER=\x7bODBC Driver 18 for SQL Server\x7d", "SERVER=h", "Database=d",
       "Pooling=true", "SQL_ATTR_TRACE=SQL_OPT_TRACE_OFF"] ∧
    "Pooling=true" ≠ "SERVER=h" ∧ "Pooling=true" ≠ "Database=d" := by
  refine ⟨rfl, by decide, by decide, by decide⟩

/-- C2 (amended): with authentication equal case-insensitively to "sql" and
windows_login false, both backends raise the database error; at the raise the
mssql-python backend has appended only the SERVER and Database fields, while
the pyodbc backend has appended exactly the DRIVER, SERVER, Database,
Pooling and SQL_ATTR_TRACE fields (no authentication, credential or
encryption field). For every authentication mode not equal
case-insensitively to "sql", both backends return a string without raising. -/
theorem C2_sql_auth_rejected (p : ConnParams) :
    (pyLower p.authentication = "sql" → p.windows_login = false →
      MssqlPythonBackend.connection_fields p =
        Except.error ⟨"SQL Authentication is not supported by Microsoft Fabric",
          ["SERVER=" ++ p.host, "Database=" ++ p.database]⟩ ∧
      PyodbcBackend.connection_fields p =
        Except.error ⟨"SQL Authentication is not supported by Microsoft Fabric",
          [PyodbcBackend.driverField p, "SERVER=" ++ p.host, "Database=" ++ p.database,
           "Pooling=true", PyodbcBackend.traceField p]⟩) ∧
    (pyLower p.authentication ≠ "sql" →
      exceptOk (MssqlPythonBackend.connection_fields p) = true ∧
      exceptOk (PyodbcBackend.connection_fields p) = true) := by
  constructor
  · intro hsql hwl
    constructor
    · simp [MssqlPythonBackend.connection_fields, MssqlPythonBackend.authSection,
        MssqlPythonBackend.baseFields, hwl, hsql, Except.map]
    · simp [PyodbcBackend.connection_fields, PyodbcBackend.authSection,
        PyodbcBackend.baseFields, hwl, hsql, Except.map]
  · intro hne
    refine ⟨?_, ?_⟩
    · rw [MssqlPythonBackend.connection_fields, exceptOk_map]
      exact MssqlPythonBackend.mssqlAuthSectionOk p hne
    · rw [PyodbcBackend.connection_fields, exceptOk_map]
      exact PyodbcBackend.pyodbcAuthSectionOk p hne

/-- Witness for C2: the amended theorem applied at concrete inputs — SQL
auth raises on both backends with the stated appended fields; an
ActiveDirectory mode builds successfully on both backends. -/
theorem C2_sql_auth_rejected_witness :
    (MssqlPythonBackend.connection_fields sqlConnParams =
      Except.error ⟨"SQL Authentication is not supported by Microsoft Fabric",
        ["SERVER=" ++ "h", "Database=" ++ "d"]⟩ ∧
     PyodbcBackend.connection_fields sqlConnParams =
      Except.error ⟨"SQL Authentication is not supported by Microsoft Fabric",
        [PyodbcBackend.driverField sqlConnParams, "SERVER=" ++ "h", "Database=" ++ "d",
         "Pooling=true", PyodbcBackend.traceField sqlConnParams]⟩) ∧
    (exceptOk (MssqlPythonBackend.connection_fields adConnParams) = true ∧
     exceptOk (PyodbcBackend.connection_fields adConnParams) = true) := by
  exact ⟨(C2_sql_auth_rejected sqlConnParams).1 rfl rfl,
         (C2_sql_auth_rejected adConnParams).2 (by decide)⟩

/-! ## Query execution retry (fabric_connection_manager.add_query) -/

/-- The outcome of one cursor.execute call: success, an error belonging to
the retryable-classified exception classes, or any other error. -/
inductive ExecOutcome (ε : Type)
  | ok
  | transient (e : ε)
  | fatal (e : ε)
deriving Repr, DecidableEq

/-- add_query._execute_query_with_retry: recursive retry with an attempt
counter. The execute outcome of the n-th attempt is exec n. Returns the
propagated result, the number of cursor.execute attempts made, and the
number of time.sleep(1) calls (each sleeping exactly one second). -/
def execute_query_with_retry {ε : Type} (exec : Nat → ExecOutcome ε)
    (retry_limit attempt : Nat) : Except ε Unit × Nat × Nat :=
  match exec attempt with
  | ExecOutcome.ok => (Except.ok (), 1, 0)
  | ExecOutcome.fatal e => (Except.error e, 1, 0)
  | ExecOutcome.transient e =>
    if h : attempt ≥ retry_limit then (Except.error e, 1, 0)
    else
      let r := execute_query_with_retry exec retry_limit (attempt + 1)
      (r.1, r.2.1 + 1, r.2.2 + 1)
termination_by retry_limit - attempt
decreasing_by omega

/-- The default value of add_query's retry_limit parameter. -/
def ADD_QUERY_DEFAULT_RETRY_LIMIT : Nat := 2

/-- The retry limit add_query passes down:
credentials.retries if credentials.retries > 3 else retry_limit. -/
def add_query_retry_limit (retries retry_limit : Nat) : Nat :=
  if retries > 3 then retries else retry_limit

theorem execute_retry_all_transient {ε : Type} (exec : Nat → ExecOutcome ε)
    (err : Nat → ε) (hexec : ∀ n, exec n = ExecOutcome.transient (err n))
    (L : Nat) :
    ∀ k a, a ≤ L → L - a = k →
      execute_query_with_retry exec L a =
        (Except.error (err L), L - a + 1, L - a) := by
  intro k
  induction k with
  | zero =>
    intro a ha hk
    have haL : a = L := by omega
    rw [execute_query_with_retry.eq_def, hexec a]
    simp [haL]
  | succ k ih =>
    intro a ha hk
    rw [execute_query_with_retry.eq_def, hexec a]
    have hlt : ¬ a ≥ L := by omega
    simp only [hlt, dite_false]
    rw [ih (a + 1) (by omega) (by omega)]
    have h1 : L - (a + 1) + 1 = L - a := by omega
    have h2 : L - (a + 1) + 1 + 1 = L - a + 1 := by omega
    simp [h1, h2]

/-- C1 counterexample: with configured retries r = 3 and a query whose every
execution raises a transient-classified error, add_query makes exactly 2
attempts (r is not > 3, so the default retry_limit 2 applies), not
max(3, 3) = 3 as claimed. -/
theorem C1_counterexample :
    (execute_query_with_retry (fun _ => ExecOutcome.transient (0 : Nat))
        (add_query_retry_limit 3 ADD_QUERY_DEFAULT_RETRY_LIMIT) 1).2.1 = 2 ∧
    (2 : Nat) ≠ max 3 3 := by
  have hL : add_query_retry_limit 3 ADD_QUERY_DEFAULT_RETRY_LIMIT = 2 := rfl
  have h := execute_retry_all_transient (fun _ => ExecOutcome.transient (0 : Nat))
    (fun _ => (0 : Nat)) (fun _ => rfl) 2 1 1 (by omega) (by omega)
  exact ⟨by rw [hL, h], by decide⟩

/-- C1 (amended): for configured retry count r, add_query passes retry
limit L = (r if r > 3 else 2, the default retry_limit argument); on a query
whose every execution raises a transient-classified error, the statement is
attempted exactly L times starting from attempt 1, with a fixed 1-second
sleep between consecutive attempts (L - 1 sleeps), and the transient error
raised by the final attempt propagates out of the retry helper unmodified. -/
theorem C1_add_query_retry {ε : Type} (exec : Nat → ExecOutcome ε)
    (err : Nat → ε) (hexec : ∀ n, exec n = ExecOutcome.transient (err n))
    (r : Nat) :
    execute_query_with_retry exec (add_query_retry_limit r ADD_QUERY_DEFAULT_RETRY_LIMIT) 1 =
      (Except.error (err (add_query_retry_limit r ADD_QUERY_DEFAULT_RETRY_LIMIT)),
       add_query_retry_limit r ADD_QUERY_DEFAULT_RETRY_LIMIT,
       add_query_retry_limit r ADD_QUERY_DEFAULT_RETRY_LIMIT - 1) ∧
    add_query_retry_limit r ADD_QUERY_DEFAULT_RETRY_LIMIT =
      (if r > 3 then r else 2) := by
  have hL : 1 ≤ add_query_retry_limit r ADD_QUERY_DEFAULT_RETRY_LIMIT := by
    unfold add_query_retry_limit ADD_QUERY_DEFAULT_RETRY_LIMIT
    split <;> omega
  constructor
  · rw [execute_retry_all_transient exec err hexec _ _ 1 hL rfl]
    have h1 : add_query_retry_limit r ADD_QUERY_DEFAULT_RETRY_LIMIT - 1 + 1 =
        add_query_retry_limit r ADD_QUERY_DEFAULT_RETRY_LIMIT := by omega
    rw [h1]
  · rfl

/-- Witness for C1 (amended): with r = 5 and every attempt raising transient
error n at attempt n, the helper makes 5 attempts, sleeps 4 times and
propagates the error of attempt 5. -/
theorem C1_add_query_retry_witness :
    execute_query_with_retry (fun n => ExecOutcome.transient n)
        (add_query_retry_limit 5 ADD_QUERY_DEFAULT_RETRY_LIMIT) 1 =
      (Except.error (5 : Nat), 5, 4) := by
  have h := C1_add_query_retry (fun n => ExecOutcome.transient n) (fun n => n)
    (fun _ => rfl) 5
  simpa using h.1

/-! ## Long-running operation poller
(warehouse_snapshots.WarehouseSnapshotManager._poll_operation_status) -/

/-- One GET of the operation URL: the HTTP status code, the JSON body
(abstract), the body's "status" field (empty string when absent, as
operation_status.get("status", "")), and the nested error object's code and
message fields (with their Python .get defaults). -/
structure PollResponse (α : Type) where
  status_code : Nat
  body : α
  status_field : String
  error_code : String
  error_message : String
deriving Repr, DecidableEq

/-- The HTTP environment the poller runs against: resp i is the response to
the GET of the operation URL on iteration i, and resultResp i is the
response (status code and JSON body) to a GET of operation_url/result
issued from iteration i; none models that request itself raising. -/
structure PollEnv (α : Type) where
  resp : Nat → PollResponse α
  resultResp : Nat → Option (Nat × α)

/-- How _poll_operation_status terminates: a returned payload, the raised
operation-failed exception message, the raised timeout exception message, a
requests.HTTPError from raise_for_status, or a propagated request
exception. -/
inductive PollOutcome (α : Type)
  | result (body : α)
  | opFailed (message : String)
  | timeout (message : String)
  | httpError (code : Nat)
  | requestExn
deriving Repr, DecidableEq

/-- The message of the failed-operation exception:
f-string "Operation {operation_id} failed: {error_code} - {error_msg}". -/
def opFailedMessage (operation_id error_code error_message : String) : String :=
  "Operation " ++ operation_id ++ " failed: " ++ error_code ++ " - " ++ error_message

/-- The message of the timeout exception:
f-string "Operation {operation_id} timed out after {max_retries} attempts". -/
def timeoutMessage (operation_id : String) (max_retries : Nat) : String :=
  "Operation " ++ operation_id ++ " timed out after " ++ toString max_retries ++ " attempts"

/-- The body of _poll_operation_status's for-loop over
attempt in range(max_retries), with remaining iterations counted down
(attempt = max_retries - remaining). Alongside the outcome it returns the
number of time.sleep(retry_delay) calls performed. -/
def pollLoop {α : Type} (env : PollEnv α) (operation_id : String)
    (max_retries : Nat) : Nat → Nat → Nat → PollOutcome α × Nat
  | 0, _, sleeps => (PollOutcome.timeout (timeoutMessage operation_id max_retries), sleeps)
  | remaining + 1, attempt, sleeps =>
    let r := env.resp attempt
    if r.status_code = 201 then
      match env.resultResp attempt with
      | none => (PollOutcome.requestExn, sleeps)
      | some (rs, rb) =>
        if rs ≥ 400 then (PollOutcome.httpError rs, sleeps)
        else (PollOutcome.result rb, sleeps)
    else if r.status_code = 200 then
      if pyLower r.status_field = "succeeded" then
        match env.resultResp attempt with
        | none => (PollOutcome.result r.body, sleeps)
        | some (rs, rb) =>
          if rs = 200 then (PollOutcome.result rb, sleeps)
          else (PollOutcome.result r.body, sleeps)
      else if pyLower r.status_field = "failed" then
        (PollOutcome.opFailed
          (opFailedMessage operation_id r.error_code r.error_message), sleeps)
      else
        pollLoop env operation_id max_retries remaining (attempt + 1) (sleeps + 1)
    else if r.status_code = 202 then
      pollLoop env operation_id max_retries remaining (attempt + 1) (sleeps + 1)
    else if r.status_code ≥ 400 then
      (PollOutcome.httpError r.status_code, sleeps)
    else
      pollLoop env operation_id max_retries remaining (attempt + 1) sleeps

/-- _poll_operation_status: run the loop for max_retries iterations from
attempt 0 with no sleeps performed. -/
def poll_operation_status {α : Type} (env : PollEnv α) (operation_id : String)
    (max_retries : Nat) : PollOutcome α × Nat :=
  pollLoop env operation_id max_retries max_retries 0 0

/-- The default max_retries of _poll_operation_status. -/
def POLL_DEFAULT_MAX_RETRIES : Nat := 5

/-- A response that is neither terminal nor error-raising: 202, a 200 whose
lowered status is neither "succeeded" nor "failed", or any other sub-400
status code except 201 (for which raise_for_status is a no-op and the loop
continues). -/
def nonTerminal {α : Type} (r : PollResponse α) : Prop :=
  r.status_code = 202 ∨
  (r.status_code = 200 ∧ pyLower r.status_field ≠ "succeeded" ∧
    pyLower r.status_field ≠ "failed") ∨
  (r.status_code ≠ 200 ∧ r.status_code ≠ 201 ∧ r.status_code ≠ 202 ∧
    r.status_code < 400)

/-- The environment of the C3 scenario: three 202 responses, then a 201
whose /result GET returns status 200 with body 42. -/
def pollEnvC3 : PollEnv Nat :=
  ⟨fun i => if i < 3 then ⟨202, 0, "", "", ""⟩ else ⟨201, 0, "", "", ""⟩,
   fun _ => some (200, 42)⟩

/-- C3 counterexample: on poll responses 202, 202, 202, 201 (max_retries 5)
the poller returns the /result body from the fourth request but sleeps
three times — once after each 202 — not twice as claimed. -/
theorem C3_counterexample :
    poll_operation_status pollEnvC3 "op" 5 = (PollOutcome.result 42, 3) ∧
    (3 : Nat) ≠ 2 := by
  exact ⟨rfl, by decide⟩

/-- C3 (amended): if the polling GETs receive status codes 202, 202, 202,
201 in that order (max_retries at least 4) and the fourth iteration's
{url}/result GET answers 200 with some body, the poller sleeps exactly
three times — once after each 202 — and returns that /result body fetched
on the fourth request. -/
theorem C3_sleep_then_result {α : Type} (env : PollEnv α) (opId : String)
    (maxR : Nat) (hmax : 4 ≤ maxR)
    (h202 : ∀ i, i < 3 → (env.resp i).status_code = 202)
    (h201 : (env.resp 3).status_code = 201)
    (b : α) (hres : env.resultResp 3 = some (200, b)) :
    poll_operation_status env opId maxR = (PollOutcome.result b, 3) := by
  obtain ⟨k, rfl⟩ : ∃ k, maxR = k + 4 := ⟨maxR - 4, by omega⟩
  show pollLoop env opId (k + 4) (k + 4) 0 0 = (PollOutcome.result b, 3)
  have e0 := h202 0 (by omega)
  have e1 := h202 1 (by omega)
  have e2 := h202 2 (by omega)
  rw [show k + 4 = (k + 3) + 1 by omega, pollLoop]
  simp only [e0]
  norm_num
  rw [show k + 3 = (k + 2) + 1 by omega, pollLoop]
  simp only [e1]
  norm_num
  rw [show k + 2 = (k + 1) + 1 by omega, pollLoop]
  simp only [e2]
  norm_num
  rw [pollLoop]
  simp only [h201, hres]
  norm_num

/-- Witness for C3 (amended): the theorem applied to the concrete
environment pollEnvC3 with max_retries 5. -/
theorem C3_sleep_then_result_witness :
    poll_operation_status pollEnvC3 "op" 5 = (PollOutcome.result 42, 3) := by
  exact C3_sleep_then_result pollEnvC3 "op" 5 (by omega)
    (fun i hi => by interval_cases i <;> rfl) rfl 42 rfl

/-- C4: terminal behaviour of _poll_operation_status. On an iteration whose
GET answers 200 with status field lowering to "succeeded", the poller
returns the {url}/result payload when that endpoint answers 200, and falls
back to the status payload when the result endpoint answers non-200 or the
request raises. On a 200 response with status "failed" it raises an error
embedding the payload's error code and message. Completing all remaining
iterations on non-terminal responses yields the timeout error naming the
operation id. -/
theorem C4_poll_terminal {α : Type} (env : PollEnv α) (opId : String)
    (maxR remaining attempt sleeps : Nat) :
    ((env.resp attempt).status_code = 200 →
      pyLower (env.resp attempt).status_field = "succeeded" →
      (∀ b, env.resultResp attempt = some (200, b) →
        pollLoop env opId maxR (remaining + 1) attempt sleeps =
          (PollOutcome.result b, sleeps)) ∧
      (∀ rs rb, env.resultResp attempt = some (rs, rb) → rs ≠ 200 →
        pollLoop env opId maxR (remaining + 1) attempt sleeps =
          (PollOutcome.result (env.resp attempt).body, sleeps)) ∧
      (env.resultResp attempt = none →
        pollLoop env opId maxR (remaining + 1) attempt sleeps =
          (PollOutcome.result (env.resp attempt).body, sleeps))) ∧
    ((env.resp attempt).status_code = 200 →
      pyLower (env.resp attempt).status_field = "failed" →
      pollLoop env opId maxR (remaining + 1) attempt sleeps =
        (PollOutcome.opFailed (opFailedMessage opId (env.resp attempt).error_code
          (env.resp attempt).error_message), sleeps)) ∧
    ((∀ i, attempt ≤ i → i < attempt + remaining → nonTerminal (env.resp i)) →
      (pollLoop env opId maxR remaining attempt sleeps).1 =
        PollOutcome.timeout (timeoutMessage opId maxR)) := by
  refine ⟨?_, ?_, ?_⟩
  · intro h200 hsucc
    refine ⟨?_, ?_, ?_⟩
    · intro b hres
      rw [pollLoop]
      simp [h200, hsucc, hres]
    · intro rs rb hres hrs
      rw [pollLoop]
      simp [h200, hsucc, hres, hrs]
    · intro hres
      rw [pollLoop]
      simp [h200, hsucc, hres]
  · intro h200 hfail
    rw [pollLoop]
    simp [h200, hfail]
  · induction remaining generalizing attempt sleeps with
    | zero => intro _; rfl
    | succ rem ih =>
      intro hnt
      have hcur := hnt attempt (le_refl attempt) (by omega)
      have hrest : ∀ i, attempt + 1 ≤ i → i < (attempt + 1) + rem →
          nonTerminal (env.resp i) := by
        intro i h1 h2
        exact hnt i (by omega) (by omega)
      rcases hcur with hc | ⟨hc, hs1, hs2⟩ | ⟨hc1, hc2, hc3, hc4⟩
      · rw [pollLoop]
        simp only [hc]
        norm_num
        exact ih (attempt + 1) (sleeps + 1) hrest
      · rw [pollLoop]
        simp only [hc, hs1, hs2]
        norm_num
        exact ih (attempt + 1) (sleeps + 1) hrest
      · have hge : ¬ (env.resp attempt).status_code ≥ 400 := by omega
        rw [pollLoop]
        simp only [hc1, hc2, hc3, hge, if_false]
        exact ih (attempt + 1) sleeps hrest

/-- The environment of the C4 witness: iteration 0 answers 200/"Succeeded"
with a 200 /result of body 99, iteration 1 answers 200/"Failed" with error
code and message, and later iterations answer 202. -/
def pollEnvC4 : PollEnv Nat :=
  ⟨fun i => if i = 0 then ⟨200, 7, "Succeeded", "", ""⟩
            else if i = 1 then ⟨200, 8, "Failed", "ErrCode", "ErrMsg"⟩
            else ⟨202, 0, "", "", ""⟩,
   fun i => if i = 0 then some (200, 99) else none⟩

/-- Witness for C4: the theorem applied to pollEnvC4 — a succeeded poll
returns the /result body, a failed poll raises the embedded code/message,
and three trailing 202 iterations exhaust into the timeout error. -/
theorem C4_poll_terminal_witness :
    pollLoop pollEnvC4 "op" 5 5 0 0 = (PollOutcome.result 99, 0) ∧
    pollLoop pollEnvC4 "op" 5 4 1 1 =
      (PollOutcome.opFailed (opFailedMessage "op" "ErrCode" "ErrMsg"), 1) ∧
    (pollLoop pollEnvC4 "op" 5 3 2 2).1 =
      PollOutcome.timeout (timeoutMessage "op" 5) := by
  refine ⟨?_, ?_, ?_⟩
  · exact ((C4_poll_terminal pollEnvC4 "op" 5 4 0 0).1 rfl (by decide)).1 99 rfl
  · exact (C4_poll_terminal pollEnvC4 "op" 5 3 1 1).2.1 rfl (by decide)
  · refine (C4_poll_terminal pollEnvC4 "op" 5 3 2 2).2.2 ?_
    intro i h1 h2
    left
    have hne0 : ¬ i = 0 := by omega
    have hne1 : ¬ i = 1 := by omega
    simp [pollEnvC4, hne0, hne1]

/-! ## Snapshot orchestration
(warehouse_snapshots.WarehouseSnapshotManager.orchestrate_snapshot_management) -/

/-- A warehouse record from the list-warehouses response; every field is
optional because the source reads it with dict.get. typeField models the
"type" key. -/
structure WarehouseRecord where
  id : Option String
  displayName : Option String
  typeField : Option String
deriving Repr, DecidableEq

/-- get_warehouse_id_by_name: scan for the first warehouse whose displayName
equals warehouse_name and whose type is "Warehouse", returning its (possibly
missing) id immediately; None when no warehouse matches. -/
def get_warehouse_id_by_name : List WarehouseRecord → String → Option String
  | [], _ => none
  | w :: rest, warehouse_name =>
    if w.displayName = some warehouse_name ∧ w.typeField = some "Warehouse" then w.id
    else get_warehouse_id_by_name rest warehouse_name

/-- A warehouse-snapshot record from the list-snapshots response;
parentWarehouseId models snapshot.get("properties", {}).get("parentWarehouseId"). -/
structure SnapshotRecord where
  id : Option String
  displayName : Option String
  parentWarehouseId : Option String
  typeField : Option String
deriving Repr, DecidableEq

/-- The match condition of find_snapshot_by_warehouse_and_name. -/
def snapshotMatches (s : SnapshotRecord) (warehouse_id snapshot_name : String) : Bool :=
  s.parentWarehouseId == some warehouse_id
    && s.displayName == some snapshot_name
    && s.typeField == some "WarehouseSnapshot"

/-- find_snapshot_by_warehouse_and_name: return the first matching
snapshot's (possibly missing) id immediately; None when nothing matches. -/
def find_snapshot_by_warehouse_and_name :
    List SnapshotRecord → String → String → Option String
  | [], _, _ => none
  | s :: rest, warehouse_id, snapshot_name =>
    if snapshotMatches s warehouse_id snapshot_name then s.id
    else find_snapshot_by_warehouse_and_name rest warehouse_id snapshot_name

/-- Which HTTP mutation orchestrate_snapshot_management performs: a PATCH
update of an existing snapshot, a POST create of a new one, or the
ValueError raised when the warehouse lookup fails Python truthiness. -/
inductive SnapshotAction
  | update (snapshot_id : String)
  | create (warehouse_id snapshot_name : String)
  | warehouseNotFound (warehouse_name : String)
deriving Repr, DecidableEq

/-- orchestrate_snapshot_management over a workspace state given by the
listed warehouses and snapshots: look up the warehouse id by name (falsy →
raise), then update when a truthy snapshot id is found, else create. -/
def orchestrate_snapshot_management (warehouses : List WarehouseRecord)
    (snapshots : List SnapshotRecord)
    (warehouse_name snapshot_name : String) : SnapshotAction :=
  let warehouse_id? := get_warehouse_id_by_name warehouses warehouse_name
  if ¬ truthyStr warehouse_id? then
    SnapshotAction.warehouseNotFound warehouse_name
  else
    let wid := warehouse_id?.getD ""
    if snapshots.length > 0 then
      let existing_snapshot_id? := find_snapshot_by_warehouse_and_name snapshots wid snapshot_name
      if truthyStr existing_snapshot_id? then
        SnapshotAction.update (existing_snapshot_id?.getD "")
      else
        SnapshotAction.create wid snapshot_name
    else
      SnapshotAction.create wid snapshot_name

theorem find_snapshot_eq_find? (snaps : List SnapshotRecord) (wid name : String) :
    find_snapshot_by_warehouse_and_name snaps wid name =
      (snaps.find? (fun s => snapshotMatches s wid name)).bind (fun s => s.id) := by
  induction snaps with
  | nil => rfl
  | cons s rest ih =>
    by_cases hm : snapshotMatches s wid name = true
    · simp [find_snapshot_by_warehouse_and_name, List.find?_cons, hm]
    · simp [find_snapshot_by_warehouse_and_name, List.find?_cons, hm, ih]

/-- Workspace state for the C5 counterexample: the snapshot record matches
(parentWarehouseId, displayName, type WarehouseSnapshot) but carries no
"id" key. -/
def whListC5 : List WarehouseRecord := [⟨some "wh1", some "WH", some "Warehouse"⟩]

def snapListC5 : List SnapshotRecord :=
  [⟨none, some "snap", some "wh1", some "WarehouseSnapshot"⟩]

/-- C5 counterexample: a workspace state contains a snapshot matching
(parentWarehouseId, displayName) with type WarehouseSnapshot, yet
orchestrate_snapshot_management issues a POST create, because the matching
record's missing id fails the Python truthiness gate. -/
theorem C5_counterexample :
    snapshotMatches ⟨none, some "snap", some "wh1", some "WarehouseSnapshot"⟩
      "wh1" "snap" = true ∧
    orchestrate_snapshot_management whListC5 snapListC5 "WH" "snap" =
      SnapshotAction.create "wh1" "snap" := by
  exact ⟨rfl, rfl⟩

/-- C5 (amended): whenever the warehouse lookup yields a truthy id wid and
the first snapshot record matching (parentWarehouseId = wid, displayName =
snapshot_name, type WarehouseSnapshot) carries a truthy (present,
non-empty) id, orchestrate_snapshot_management issues the PATCH update with
that id and never a POST create; hence a second orchestrate call whose
listing shows the snapshot made by a first successful call (with its
non-empty id) always takes the update path. -/
theorem C5_update_not_create (warehouses : List WarehouseRecord)
    (snapshots : List SnapshotRecord) (warehouse_name snapshot_name : String)
    (wid sid : String) (s : SnapshotRecord)
    (hw : get_warehouse_id_by_name warehouses warehouse_name = some wid)
    (hwne : wid ≠ "")
    (hfind : snapshots.find? (fun s => snapshotMatches s wid snapshot_name) = some s)
    (hid : s.id = some sid) (hsne : sid ≠ "") :
    orchestrate_snapshot_management warehouses snapshots warehouse_name snapshot_name =
      SnapshotAction.update sid ∧
    ∀ w n, orchestrate_snapshot_management warehouses snapshots warehouse_name snapshot_name ≠
      SnapshotAction.create w n := by
  have hfs : find_snapshot_by_warehouse_and_name snapshots wid snapshot_name = some sid := by
    rw [find_snapshot_eq_find?, hfind]
    simp [hid]
  have hlen : snapshots.length > 0 := by
    cases snapshots with
    | nil => simp at hfind
    | cons a l => simp
  have hm : orchestrate_snapshot_management warehouses snapshots warehouse_name snapshot_name =
      SnapshotAction.update sid := by
    unfold orchestrate_snapshot_management
    simp [hw, truthyStr, hwne, hlen, hfs, hsne]
  exact ⟨hm, fun w n => by rw [hm]; intro hc; cases hc⟩

/-- Witness for C5 (amended): a workspace whose matching snapshot carries
id "snap-id" makes orchestrate take the update path. -/
theorem C5_update_not_create_witness :
    orchestrate_snapshot_management whListC5
      [⟨some "snap-id", some "snap", some "wh1", some "WarehouseSnapshot"⟩]
      "WH" "snap" = SnapshotAction.update "snap-id" := by
  exact (C5_update_not_create whListC5
    [⟨some "snap-id", some "snap", some "wh1", some "WarehouseSnapshot"⟩]
    "WH" "snap" "wh1" "snap-id"
    ⟨some "snap-id", some "snap", some "wh1", some "WarehouseSnapshot"⟩
    rfl (by decide) rfl rfl (by decide)).1

/-! ## Token management (fabric_connection_manager.get_token_attrs_before) -/

/-- azure.core AccessToken: the token (as its UTF-8 bytes) and the POSIX
expiry. -/
structure AccessToken where
  token : Bytes
  expires_on : Int
deriving Repr, DecidableEq

/-- fabric_connection_manager.convert_access_token_to_mswindows_byte_string:
encode the token's bytes as a Microsoft Windows byte string. -/
def convert_access_token_to_mswindows_byte_string (t : AccessToken) : Bytes :=
  convert_bytes_to_mswindows_byte_string t.token

/-- The keys of AZURE_AUTH_FUNCTIONS: the authentication modes mapped to an
acquisition strategy. -/
def AZURE_AUTH_MODES : List String :=
  ["cli", "auto", "environment", "synapsespark", "fabricnotebook"]

/-- The credentials fields read by get_token_attrs_before. -/
structure TokenCredentials where
  authentication : String
  access_token : Option Bytes
  access_token_expires_on : Option Int
deriving Repr, DecidableEq

/-- The ODBC constant for an access token, sql_copt_ss_access_token. -/
def SQL_COPT_SS_ACCESS_TOKEN : Nat := 1256

/-- The freshness margin MAX_REMAINING_TIME (seconds). -/
def MAX_REMAINING_TIME : Int := 300

/-- The attrs_before dict: empty, or the single access-token binding. -/
inductive AttrsBefore
  | empty
  | accessToken (key : Nat) (value : Bytes)
deriving Repr, DecidableEq

/-- The configuration-error message raised for an incomplete static token. -/
def MISSING_TOKEN_ERROR : String :=
  "Access token and access token expiry are required for ActiveDirectoryAccessToken authentication."

/-- get_token_attrs_before. State-passing model of the process-wide _TOKEN:
token_state is _TOKEN on entry; now is time.time(); fresh is the token the
mode's AZURE_AUTH_FUNCTIONS entry would return if called. The result
carries the attrs (or the raised ValueError), the _TOKEN on exit, and
whether an acquisition function was called. -/
def get_token_attrs_before (creds : TokenCredentials)
    (backend_requires_token_bytes : Bool) (now : Int) (fresh : AccessToken)
    (token_state : Option AccessToken) :
    Except String (AttrsBefore × Option AccessToken × Bool) :=
  if ¬ backend_requires_token_bytes then
    Except.ok (AttrsBefore.empty, token_state, false)
  else if pyLower creds.authentication ∈ AZURE_AUTH_MODES then
    match token_state with
    | none =>
      Except.ok (AttrsBefore.accessToken SQL_COPT_SS_ACCESS_TOKEN
        (convert_access_token_to_mswindows_byte_string fresh), some fresh, true)
    | some t =>
      if t.expires_on - now < MAX_REMAINING_TIME then
        Except.ok (AttrsBefore.accessToken SQL_COPT_SS_ACCESS_TOKEN
          (convert_access_token_to_mswindows_byte_string fresh), some fresh, true)
      else
        Except.ok (AttrsBefore.accessToken SQL_COPT_SS_ACCESS_TOKEN
          (convert_access_token_to_mswindows_byte_string t), some t, false)
  else if pyLower creds.authentication = "activedirectoryaccesstoken" then
    match creds.access_token, creds.access_token_expires_on with
    | some tok, some exp =>
      let newTok : AccessToken := ⟨tok, if exp = 0 then now + 4500 else exp⟩
      Except.ok (AttrsBefore.accessToken SQL_COPT_SS_ACCESS_TOKEN
        (convert_access_token_to_mswindows_byte_string newTok), some newTok, false)
    | _, _ => Except.error MISSING_TOKEN_ERROR
  else
    Except.ok (AttrsBefore.empty, token_state, false)

/-- C6: for every authentication mode mapped to an acquisition strategy, on
a backend requiring out-of-band token bytes: a cached token whose expiry is
at least 300 seconds away is reused as-is — two such calls return attrs
built from the identical cached token, perform no acquisition and leave the
cache unchanged — while an absent cached token, or one expiring within 300
seconds, is replaced by a freshly acquired token. -/
theorem C6_token_cache (creds : TokenCredentials) (now now2 : Int)
    (fresh fresh2 t : AccessToken)
    (hm : pyLower creds.authentication ∈ AZURE_AUTH_MODES) :
    (MAX_REMAINING_TIME ≤ t.expires_on - now →
      get_token_attrs_before creds true now fresh (some t) =
        Except.ok (AttrsBefore.accessToken SQL_COPT_SS_ACCESS_TOKEN
          (convert_access_token_to_mswindows_byte_string t), some t, false)) ∧
    (MAX_REMAINING_TIME ≤ t.expires_on - now → MAX_REMAINING_TIME ≤ t.expires_on - now2 →
      get_token_attrs_before creds true now fresh (some t) =
        get_token_attrs_before creds true now2 fresh2 (some t)) ∧
    (get_token_attrs_before creds true now fresh none =
      Except.ok (AttrsBefore.accessToken SQL_COPT_SS_ACCESS_TOKEN
        (convert_access_token_to_mswindows_byte_string fresh), some fresh, true)) ∧
    (t.expires_on - now < MAX_REMAINING_TIME →
      get_token_attrs_before creds true now fresh (some t) =
        Except.ok (AttrsBefore.accessToken SQL_COPT_SS_ACCESS_TOKEN
          (convert_access_token_to_mswindows_byte_string fresh), some fresh, true)) := by
  refine ⟨?_, ?_, ?_, ?_⟩
  · intro hlive
    unfold get_token_attrs_before
    simp [hm]
    omega
  · intro hlive hlive2
    unfold get_token_attrs_before
    simp [hm]
    rw [if_neg (by omega), if_neg (by omega)]
  · unfold get_token_attrs_before
    simp [hm]
  · intro hexp
    unfold get_token_attrs_before
    simp [hm]
    omega

/-- Witness for C6: CLI mode with a cached token expiring 1000s after both
calls reuses the cache identically; an empty cache and a token expiring in
100s are both replaced by the fresh token. -/
theorem C6_token_cache_witness :
    (get_token_attrs_before ⟨"cli", none, none⟩ true 0 ⟨[9], 50⟩ (some ⟨[1], 1000⟩) =
      Except.ok (AttrsBefore.accessToken SQL_COPT_SS_ACCESS_TOKEN
        (convert_access_token_to_mswindows_byte_string ⟨[1], 1000⟩),
        some ⟨[1], 1000⟩, false)) ∧
    (get_token_attrs_before ⟨"cli", none, none⟩ true 0 ⟨[9], 50⟩ (some ⟨[1], 1000⟩) =
      get_token_attrs_before ⟨"cli", none, none⟩ true 10 ⟨[8], 60⟩ (some ⟨[1], 1000⟩)) ∧
    (get_token_attrs_before ⟨"cli", none, none⟩ true 0 ⟨[9], 50⟩ none =
      Except.ok (AttrsBefore.accessToken SQL_COPT_SS_ACCESS_TOKEN
        (convert_access_token_to_mswindows_byte_string ⟨[9], 50⟩), some ⟨[9], 50⟩, true)) ∧
    (get_token_attrs_before ⟨"cli", none, none⟩ true 0 ⟨[9], 50⟩ (some ⟨[1], 100⟩) =
      Except.ok (AttrsBefore.accessToken SQL_COPT_SS_ACCESS_TOKEN
        (convert_access_token_to_mswindows_byte_string ⟨[9], 50⟩), some ⟨[9], 50⟩, true)) := by
  have h1 := C6_token_cache ⟨"cli", none, none⟩ 0 10 ⟨[9], 50⟩ ⟨[8], 60⟩ ⟨[1], 1000⟩ (by decide)
  have h2 := C6_token_cache ⟨"cli", none, none⟩ 0 10 ⟨[9], 50⟩ ⟨[8], 60⟩ ⟨[1], 100⟩ (by decide)
  exact ⟨h1.1 (by decide), h1.2.1 (by decide) (by decide), h1.2.2.1, h2.2.2.2 (by decide)⟩

/-- C8: in ActiveDirectoryAccessToken mode on a backend requiring token
bytes, get_token_attrs_before raises the configuration error exactly when
access_token or access_token_expires_on is None; given both, the stored
token expires at now + 4500 seconds (75 minutes) when the configured expiry
is 0, otherwise at the configured expiry. -/
theorem C8_static_token (creds : TokenCredentials) (now : Int)
    (fresh : AccessToken) (token_state : Option AccessToken)
    (hst : pyLower creds.authentication = "activedirectoryaccesstoken") :
    ((creds.access_token = none ∨ creds.access_token_expires_on = none) ↔
      get_token_attrs_before creds true now fresh token_state =
        Except.error MISSING_TOKEN_ERROR) ∧
    (∀ tok exp, creds.access_token = some tok → creds.access_token_expires_on = some exp →
      get_token_attrs_before creds true now fresh token_state =
        Except.ok (AttrsBefore.accessToken SQL_COPT_SS_ACCESS_TOKEN
          (convert_access_token_to_mswindows_byte_string
            ⟨tok, if exp = 0 then now + 4500 else exp⟩),
          some ⟨tok, if exp = 0 then now + 4500 else exp⟩, false)) := by
  have hnm : ("activedirectoryaccesstoken" : String) ∉ AZURE_AUTH_MODES := by decide
  constructor
  · constructor
    · intro hmiss
      unfold get_token_attrs_before
      rcases hmiss with hmiss | hmiss <;>
        · rcases h1 : creds.access_token with _ | tok <;>
            rcases h2 : creds.access_token_expires_on with _ | exp <;>
            simp_all [hnm, hst]
    · intro herr
      by_contra hboth
      push_neg at hboth
      rcases Option.ne_none_iff_exists.mp hboth.1 with ⟨tok, h1⟩
      rcases Option.ne_none_iff_exists.mp hboth.2 with ⟨exp, h2⟩
      unfold get_token_attrs_before at herr
      simp [hnm, hst, ← h1, ← h2] at herr
  · intro tok exp h1 h2
    unfold get_token_attrs_before
    simp [hnm, hst, h1, h2]

/-- Witness for C8: a missing token raises the configuration error; a
present token with configured expiry 0 is stored expiring at now + 4500;
one with expiry 777 is stored expiring at 777. -/
theorem C8_static_token_witness :
    (get_token_attrs_before ⟨"ActiveDirectoryAccessToken", none, some 5⟩ true 100 ⟨[9], 50⟩ none =
      Except.error MISSING_TOKEN_ERROR) ∧
    (get_token_attrs_before ⟨"ActiveDirectoryAccessToken", some [3], some 0⟩ true 100 ⟨[9], 50⟩ none =
      Except.ok (AttrsBefore.accessToken SQL_COPT_SS_ACCESS_TOKEN
        (convert_access_token_to_mswindows_byte_string ⟨[3], 4600⟩), some ⟨[3], 4600⟩, false)) ∧
    (get_token_attrs_before ⟨"ActiveDirectoryAccessToken", some [3], some 777⟩ true 100 ⟨[9], 50⟩ none =
      Except.ok (AttrsBefore.accessToken SQL_COPT_SS_ACCESS_TOKEN
        (convert_access_token_to_mswindows_byte_string ⟨[3], 777⟩), some ⟨[3], 777⟩, false)) := by
  refine ⟨?_, ?_, ?_⟩
  · exact (C8_static_token ⟨"ActiveDirectoryAccessToken", none, some 5⟩ 100 ⟨[9], 50⟩ none
      (by decide)).1.mp (Or.inl rfl)
  · have h := (C8_static_token ⟨"ActiveDirectoryAccessToken", some [3], some 0⟩ 100 ⟨[9], 50⟩ none
      (by decide)).2 [3] 0 rfl rfl
    simpa using h
  · have h := (C8_static_token ⟨"ActiveDirectoryAccessToken", some [3], some 777⟩ 100 ⟨[9], 50⟩ none
      (by decide)).2 [3] 777 rfl rfl
    simpa using h

/-- C10: get_token_attrs_before returns the empty attribute map without
raising and without touching the cached token whenever the backend does not
require token bytes (any mode), and likewise on a token-bytes backend for
every authentication mode that is neither mapped to an acquisition strategy
nor the static-access-token mode. -/
theorem C10_unmapped_modes_empty (creds : TokenCredentials) (now : Int)
    (fresh : AccessToken) (token_state : Option AccessToken) :
    (get_token_attrs_before creds false now fresh token_state =
      Except.ok (AttrsBefore.empty, token_state, false)) ∧
    (pyLower creds.authentication ∉ AZURE_AUTH_MODES →
      pyLower creds.authentication ≠ "activedirectoryaccesstoken" →
      get_token_attrs_before creds true now fresh token_state =
        Except.ok (AttrsBefore.empty, token_state, false)) := by
  constructor
  · rfl
  · intro hnm hns
    unfold get_token_attrs_before
    simp [hnm, hns]

/-- Witness for C10: ActiveDirectoryServicePrincipal (handled in the
connection string) yields the empty map on the token-bytes backend, and the
static mode yields the empty map when the backend needs no token bytes. -/
theorem C10_unmapped_modes_empty_witness :
    (get_token_attrs_before ⟨"ActiveDirectoryServicePrincipal", none, none⟩ true 0 ⟨[9], 50⟩ none =
      Except.ok (AttrsBefore.empty, none, false)) ∧
    (get_token_attrs_before ⟨"ActiveDirectoryAccessToken", none, none⟩ false 0 ⟨[9], 50⟩ none =
      Except.ok (AttrsBefore.empty, none, false)) := by
  exact ⟨(C10_unmapped_modes_empty ⟨"ActiveDirectoryServicePrincipal", none, none⟩ 0
            ⟨[9], 50⟩ none).2 (by decide) (by decide),
         (C10_unmapped_modes_empty ⟨"ActiveDirectoryAccessToken", none, none⟩ 0
            ⟨[9], 50⟩ none).1⟩

/-! ## Driver backend resolution cache
(driver_backend.get_cached_driver_backend) -/

/-- get_cached_driver_backend. State-passing model of the module globals
(_active_backend, _active_backend_preference); resolve stands for
get_driver_backend, the availability-probing resolution. Returns the
backend handed to the caller, the globals on exit, and whether resolution
(probing) ran. -/
def get_cached_driver_backend {β : Type} (resolve : String → β) (preferred : String)
    (state : Option β × Option String) : β × (Option β × Option String) × Bool :=
  match state with
  | (none, _) => (resolve preferred, (some (resolve preferred), some preferred), true)
  | (some b, pref) =>
    if pref ≠ some preferred then
      (resolve preferred, (some (resolve preferred), some preferred), true)
    else
      (b, (some b, pref), false)

/-- C9: backend resolution is memoized per preference string — with a
cached instance for the same preference, every call returns that identical
instance without re-probing and leaves the cache unchanged; a different
preference string (or an empty cache) resolves anew, probing availability
and storing the new instance with its preference. -/
theorem C9_backend_memoized {β : Type} (resolve : String → β) (b : β)
    (p p2 : String) (pref : Option String) :
    (get_cached_driver_backend resolve p (some b, some p) =
      (b, (some b, some p), false)) ∧
    (p2 ≠ p →
      get_cached_driver_backend resolve p2 (some b, some p) =
        (resolve p2, (some (resolve p2), some p2), true)) ∧
    (get_cached_driver_backend resolve p (none, pref) =
      (resolve p, (some (resolve p), some p), true)) := by
  refine ⟨?_, ?_, ?_⟩
  · simp [get_cached_driver_backend]
  · intro hne
    have hne2 : p ≠ p2 := Ne.symm hne
    simp [get_cached_driver_backend, hne2]
  · rfl

/-- Witness for C9: with resolve = String.length, a cache holding 4 for
"auto" is reused for "auto" and discarded for "pyodbc". -/
theorem C9_backend_memoized_witness :
    (get_cached_driver_backend String.length "auto" (some 4, some "auto") =
      (4, (some 4, some "auto"), false)) ∧
    (get_cached_driver_backend String.length "pyodbc" (some 4, some "auto") =
      (6, (some 6, some "pyodbc"), true)) := by
  have h := C9_backend_memoized String.length 4 "auto" "pyodbc" none
  exact ⟨h.1, by simpa using h.2.1 (by decide)⟩

end DbtFabric
